import Mathlib

/-!
Verification of the `DocumentProcessor.process` pipeline
(`DocumentPhotoExtractor/document_processor.py`).

The collaborators of the pipeline (`get_document_type`, `extract_text_from_document`,
`perform_ocr`, `extract_images`, `extract_faces`, `analyze_document`,
`analyze_image_content`, utf-8 decoding of face payloads) live in `utils/` and
are external to the pipeline; they are modelled as an oracle environment `Env`
whose calls may either return a value or raise (`Except String`).  `process`
itself is a line-by-line shallow embedding of the Python source, additionally
returning a `Trace` that records which collaborators were invoked and with
which arguments (observable in Python, needed for call-count claims).
-/

namespace Docu

/-- Python values as far as the pipeline inspects them (truthiness, dict
lookup, `isinstance(..., dict)`). -/
inductive Value where
  | vstr (s : String)
  | vbool (b : Bool)
  | vlist (l : List Value)
  | vdict (d : List (String × Value))
  | vnone
deriving Repr

/-- Python truthiness of a value (only the top constructor is inspected,
as in the source). -/
def Value.truthy : Value → Bool
  | .vstr s => s != ""
  | .vbool b => b
  | .vlist l => !l.isEmpty
  | .vdict d => !d.isEmpty
  | .vnone => false

/-- Python `d.get(k)`: lookup in an association-list dictionary. -/
def dget (d : List (String × Value)) (k : String) : Option Value :=
  match d with
  | [] => none
  | (k1, v) :: rest => if k1 = k then some v else dget rest k

/-- Python `d[k] = v`: replace the value at an existing key, else append. -/
def dsetKey (d : List (String × Value)) (k : String) (v : Value) :
    List (String × Value) :=
  match d with
  | [] => [(k, v)]
  | (k1, v1) :: rest =>
    if k1 = k then (k1, v) :: rest else (k1, v1) :: dsetKey rest k v

/-- Python `d.update(u)`: set every key of `u` in `d`, in order. -/
def dupdate (d u : List (String × Value)) : List (String × Value) :=
  u.foldl (fun acc p => dsetKey acc p.1 p.2) d

/-- Truthiness of an optional value (`d.get(k)` used as a condition:
a missing key yields `None`, which is falsy). -/
def optValueTruthy : Option Value → Bool
  | some v => v.truthy
  | none => false

/-- The dictionary returned by `analyze_document` (and mutated by the
pipeline), projected onto the keys the pipeline reads or writes.
`none` means the key is absent.  Per the analyzer contract (spec section 6),
`api_available` is a boolean and `structured_info`, when present, a mapping;
unrelated keys are kept in `extra`. -/
structure DocAnalysis where
  api_available : Option Bool
  structured_info : Option (List (String × Value))
  extra : List (String × Value)
deriving Repr

/-- Python `{}`: the empty document-analysis dictionary. -/
def DocAnalysis.empty : DocAnalysis := ⟨none, none, []⟩

/-- Truthiness of `document_analysis.get(\x27structured_info\x27)`. -/
def DocAnalysis.structuredInfoTruthy (d : DocAnalysis) : Bool :=
  match d.structured_info with
  | some si => !si.isEmpty
  | none => false

/-- Truthiness of
`document_analysis.get(\x27structured_info\x27, \x7b\x7d).get(\x27personal_info\x27)`. -/
def DocAnalysis.personalInfoTruthy (d : DocAnalysis) : Bool :=
  match d.structured_info with
  | some si => optValueTruthy (dget si "personal_info")
  | none => false

/-- The dictionary returned by `analyze_image_content`, projected onto the
keys the pipeline reads; `structured_info` is kept as a raw `Value` because
the source checks `isinstance(image_analysis[\x27structured_info\x27], dict)`
explicitly. -/
structure ImgAnalysis where
  success : Option Bool
  api_available : Option Bool
  structured_info : Option Value
  extra : List (String × Value)
deriving Repr

/-- Python truthiness of the `image_analysis` dictionary: non-empty. -/
def ImgAnalysis.truthy (a : ImgAnalysis) : Bool :=
  a.success.isSome || a.api_available.isSome || a.structured_info.isSome ||
    !a.extra.isEmpty

/-- A face payload extracted by `extract_faces`: either raw bytes (to be
utf-8 decoded at assembly) or already a string. -/
inductive Face where
  | bytes (payload : List Nat)
  | str (s : String)
deriving Repr, DecidableEq

/-- Embedded raster images are abstract identifiers to the pipeline. -/
abbrev Image := Nat

/-- The oracle environment: the behaviour of every collaborator on the fixed
input file.  Each call may raise, modelled as `Except String` carrying the
exception message. -/
structure Env where
  get_document_type : Except String String
  extract_text_from_document : String → Except String String
  perform_ocr : String → Except String String
  extract_images : String → Except String (List Image)
  extract_faces : Image → Except String (List Face)
  analyze_document : String → Except String DocAnalysis
  analyze_image_content : Face → Except String (Option ImgAnalysis)
  decode_utf8 : List Nat → Except String String

/-- The result dictionary built by `process`; `none` marks an absent key. -/
structure ResultDict where
  success : Bool
  error : Option String
  document_type : Option String
  extracted_info : Option DocAnalysis
  face_count : Option Nat
  face_images : Option (List String)
deriving Repr

/-- The failure-shaped result of the `except` handler
(source lines 121-126): exactly the keys `success` and `error`. -/
def mkFail (e : String) : ResultDict :=
  ⟨false, some e, none, none, none, none⟩

/-- Record of collaborator invocations made during one run: the `doc_type`
argument of each `perform_ocr` call, the text argument of each
`analyze_document` call, and the face argument of each
`analyze_image_content` call, in call order. -/
structure Trace where
  ocrCalls : List String
  docCalls : List String
  imgCalls : List Face
deriving Repr, DecidableEq

/-- The OCR trigger (source line 43):
`(not text_content or len(text_content) < 50) and doc_type in [image, pdf]`. -/
def ocrCondition (doc_type text0 : String) : Bool :=
  (text0 == "" || decide (text0.length < 50)) &&
    (doc_type == "image" || doc_type == "pdf")

/-- Combination of native text with OCR text (source lines 47-52): keep the
native text unchanged when OCR produced nothing; otherwise append the OCR
text after a blank-line separator, or use it alone when no native text. -/
def combineOcr (text0 ocr_text : String) : String :=
  if ocr_text == "" then text0
  else if text0 == "" then ocr_text
  else text0 ++ "\n\n" ++ ocr_text

/-- Source lines 43-54: conditionally invoke OCR and combine its output with
the native text. -/
def textStage (env : Env) (doc_type text0 : String) : Except String String :=
  if ocrCondition doc_type text0 then
    match env.perform_ocr doc_type with
    | .error e => .error e
    | .ok ocr_text => .ok (combineOcr text0 ocr_text)
  else .ok text0

/-- Source lines 63-65: run `extract_faces` over every extracted image and
concatenate the detected faces in image order. -/
def collectFaces (env : Env) : List Image → Except String (List Face)
  | [] => .ok []
  | i :: rest =>
    match env.extract_faces i with
    | .error e => .error e
    | .ok fs =>
      match collectFaces env rest with
      | .error e => .error e
      | .ok more => .ok (fs ++ more)

/-- Source lines 61-68: face extraction, skipped entirely when requested. -/
def facesStage (env : Env) (images : List Image) (skip_faces : Bool) :
    Except String (List Face) :=
  if skip_faces then .ok [] else collectFaces env images

/-- Source lines 70-81: text analysis.  When text is present, call
`analyze_document` and read `api_available` with default `False`; otherwise
keep the empty dictionary and the default `api_available = True`. -/
def textAnalysisStage (env : Env) (text : String) :
    Except String (DocAnalysis × Bool) :=
  if text = "" then .ok (DocAnalysis.empty, true)
  else
    match env.analyze_document text with
    | .error e => .error e
    | .ok d => .ok (d, d.api_available.getD false)

/-- Source lines 85-88: the face-analysis trigger
`not skip_faces and face_images and (not ...structured_info or not
...personal_info)`. -/
def needFaceAnalysis (skip_faces : Bool) (face_images : List Face)
    (d : DocAnalysis) : Bool :=
  !skip_faces && !face_images.isEmpty &&
    (!d.structuredInfoTruthy || !d.personalInfoTruthy)

/-- Source lines 95-105: the body of the face-analysis loop for one analyzed
face — merge a successful image analysis into the document analysis
(ensuring the `structured_info` key exists, updating it with the image
analysis fields when they form a dictionary) and OR the availability flags. -/
def mergeImageAnalysis (d : DocAnalysis) (api : Bool)
    (ia : Option ImgAnalysis) : DocAnalysis × Bool :=
  match ia with
  | none => (d, api)
  | some a =>
    if a.truthy && a.success.getD false then
      let d1 := if d.structured_info.isSome then d
                else { d with structured_info := some [] }
      let d2 := match a.structured_info with
        | some (.vdict u) =>
          { d1 with structured_info := some (dupdate (d1.structured_info.getD []) u) }
        | _ => d1
      (d2, api || a.api_available.getD false)
    else (d, api)

/-- Source lines 92-105: the loop `for i, face in enumerate(face_images[:1])`.
Returns the analysis outcome and the list of faces actually sent to
`analyze_image_content` (the faces are recorded even when a call raises). -/
def faceAnalysisLoop (env : Env) :
    List Face → DocAnalysis → Bool →
      Except String (DocAnalysis × Bool) × List Face
  | [], d, api => (.ok (d, api), [])
  | f :: rest, d, api =>
    match env.analyze_image_content f with
    | .error e => (.error e, [f])
    | .ok ia =>
      let (d1, api1) := mergeImageAnalysis d api ia
      let (r, calls) := faceAnalysisLoop env rest d1 api1
      (r, f :: calls)

/-- Source line 115: encode one face payload for the result
(`face.decode(\x27utf-8\x27) if isinstance(face, bytes) else face`). -/
def encodeFace (env : Env) : Face → Except String String
  | .bytes p => env.decode_utf8 p
  | .str s => .ok s

/-- Source line 115: encode every face payload, left to right, stopping at
the first decoding error. -/
def encodeFaces (env : Env) : List Face → Except String (List String)
  | [] => .ok []
  | f :: rest =>
    match encodeFace env f with
    | .error e => .error e
    | .ok s =>
      match encodeFaces env rest with
      | .error e => .error e
      | .ok ss => .ok (s :: ss)

/-- The method `DocumentProcessor.process` (source lines 19-126): the full pipeline
with its surrounding `try/except`, paired with the trace of collaborator
invocations. -/
def process (env : Env) (skip_faces : Bool) : ResultDict × Trace :=
  match env.get_document_type with
  | .error e => (mkFail e, ⟨[], [], []⟩)
  | .ok doc_type =>
    match env.extract_text_from_document doc_type with
    | .error e => (mkFail e, ⟨[], [], []⟩)
    | .ok text0 =>
      match textStage env doc_type text0 with
      | .error e =>
        (mkFail e, ⟨if ocrCondition doc_type text0 then [doc_type] else [],
          [], []⟩)
      | .ok text =>
        match env.extract_images doc_type with
        | .error e =>
          (mkFail e, ⟨if ocrCondition doc_type text0 then [doc_type] else [],
            [], []⟩)
        | .ok images =>
          match facesStage env images skip_faces with
          | .error e =>
            (mkFail e,
             ⟨if ocrCondition doc_type text0 then [doc_type] else [], [], []⟩)
          | .ok face_images =>
            match textAnalysisStage env text with
            | .error e =>
              (mkFail e,
               ⟨if ocrCondition doc_type text0 then [doc_type] else [],
                if text = "" then [] else [text], []⟩)
            | .ok (d1, api1) =>
              match (if needFaceAnalysis skip_faces face_images d1 then
                      faceAnalysisLoop env (face_images.take 1) d1 api1
                     else (Except.ok (d1, api1), [])) with
              | (.error e, calls) =>
                (mkFail e,
                 ⟨if ocrCondition doc_type text0 then [doc_type] else [],
                  if text = "" then [] else [text], calls⟩)
              | (.ok (d2, api2), calls) =>
                match encodeFaces env face_images with
                | .error e =>
                  (mkFail e,
                   ⟨if ocrCondition doc_type text0 then [doc_type] else [],
                    if text = "" then [] else [text], calls⟩)
                | .ok enc =>
                  ({ success := true, error := none,
                     document_type := some doc_type,
                     extracted_info := some { d2 with api_available := some api2 },
                     face_count := some face_images.length,
                     face_images := some enc },
                   ⟨if ocrCondition doc_type text0 then [doc_type] else [],
                    if text = "" then [] else [text], calls⟩)

/-! ### Structural lemmas about a run of the pipeline -/

theorem encodeFaces_length (env : Env) :
    ∀ fs : List Face, ∀ l, encodeFaces env fs = .ok l → l.length = fs.length := by
  intro fs
  induction fs with
  | nil =>
    intro l h
    simp only [encodeFaces] at h
    injection h with h1
    simp [← h1]
  | cons f rest ih =>
    intro l h
    simp only [encodeFaces] at h
    cases hf : encodeFace env f with
    | error e => rw [hf] at h; exact absurd h (by simp)
    | ok s =>
      rw [hf] at h
      cases hr : encodeFaces env rest with
      | error e => rw [hr] at h; exact absurd h (by simp)
      | ok ss =>
        rw [hr] at h
        injection h with h1
        simp [← h1, ih ss hr]

theorem faceAnalysisLoop_nil (env : Env) (d : DocAnalysis) (api : Bool) :
    faceAnalysisLoop env [] d api = (.ok (d, api), []) := rfl

theorem faceAnalysisLoop_calls_singleton (env : Env) (f : Face)
    (d : DocAnalysis) (api : Bool) :
    (faceAnalysisLoop env [f] d api).2 = [f] := by
  simp only [faceAnalysisLoop]
  cases env.analyze_image_content f <;> simp [faceAnalysisLoop]

theorem process_success_spec (env : Env) (sf : Bool) (r : ResultDict)
    (t : Trace) (hp : process env sf = (r, t)) (hs : r.success = true) :
    ∃ doc_type text0 text images face_images d1 api1 d2 api2 calls enc,
      env.get_document_type = .ok doc_type ∧
      env.extract_text_from_document doc_type = .ok text0 ∧
      textStage env doc_type text0 = .ok text ∧
      env.extract_images doc_type = .ok images ∧
      facesStage env images sf = .ok face_images ∧
      textAnalysisStage env text = .ok (d1, api1) ∧
      (if needFaceAnalysis sf face_images d1 then
        faceAnalysisLoop env (face_images.take 1) d1 api1
       else (Except.ok (d1, api1), [])) = (Except.ok (d2, api2), calls) ∧
      encodeFaces env face_images = .ok enc ∧
      r = { success := true, error := none, document_type := some doc_type,
            extracted_info := some { d2 with api_available := some api2 },
            face_count := some face_images.length,
            face_images := some enc } ∧
      t = ⟨if ocrCondition doc_type text0 then [doc_type] else [],
           if text = "" then [] else [text], calls⟩ := by
  unfold process at hp
  split at hp
  · injection hp with h1 h2
    rw [← h1] at hs
    exact absurd hs (by simp [mkFail])
  rename_i doc_type hdt
  split at hp
  · injection hp with h1 h2
    rw [← h1] at hs
    exact absurd hs (by simp [mkFail])
  rename_i text0 htext0
  split at hp
  · injection hp with h1 h2
    rw [← h1] at hs
    exact absurd hs (by simp [mkFail])
  rename_i text htext
  split at hp
  · injection hp with h1 h2
    rw [← h1] at hs
    exact absurd hs (by simp [mkFail])
  rename_i images himages
  split at hp
  · injection hp with h1 h2
    rw [← h1] at hs
    exact absurd hs (by simp [mkFail])
  rename_i face_images hfaces
  split at hp
  · injection hp with h1 h2
    rw [← h1] at hs
    exact absurd hs (by simp [mkFail])
  rename_i d1 api1 hanalysis
  split at hp
  · injection hp with h1 h2
    rw [← h1] at hs
    exact absurd hs (by simp [mkFail])
  rename_i e d2 api2 calls hloop
  split at hp
  · injection hp with h1 h2
    rw [← h1] at hs
    exact absurd hs (by simp [mkFail])
  rename_i enc henc
  injection hp with h1 h2
  exact ⟨doc_type, text0, text, images, face_images, d1, api1, d2, api2,
    calls, enc, hdt, htext0, htext, himages, hfaces, hanalysis, hloop, henc,
    h1.symm, h2.symm⟩

theorem dget_dsetKey (b : List (String × Value)) (k k1 : String) (v : Value) :
    dget (dsetKey b k v) k1 = if k = k1 then some v else dget b k1 := by
  induction b with
  | nil => simp [dsetKey, dget]
  | cons p rest ih =>
    obtain ⟨pk, pv⟩ := p
    by_cases hpk : pk = k
    · subst hpk
      simp only [dsetKey, if_pos rfl, dget]
      by_cases hk1 : pk = k1 <;> simp [hk1]
    · simp only [dsetKey, if_neg hpk, dget]
      by_cases hk1 : pk = k1
      · subst hk1
        have : ¬ k = pk := fun h => hpk h.symm
        simp [this]
      · simp [hk1, ih]

theorem dget_eq_none_of_not_mem (u : List (String × Value)) (k : String)
    (h : k ∉ u.map Prod.fst) : dget u k = none := by
  induction u with
  | nil => rfl
  | cons p rest ih =>
    obtain ⟨pk, pv⟩ := p
    simp only [List.map_cons, List.mem_cons] at h
    push_neg at h
    simp only [dget, if_neg (fun hh : pk = k => h.1 hh.symm)]
    exact ih h.2

theorem dget_dupdate (u : List (String × Value))
    (hnd : (u.map Prod.fst).Nodup) :
    ∀ (b : List (String × Value)) (k : String),
      dget (dupdate b u) k =
        match dget u k with
        | some v => some v
        | none => dget b k := by
  induction u with
  | nil => intro b k; simp [dupdate, dget]
  | cons p rest ih =>
    intro b k
    obtain ⟨pk, pv⟩ := p
    simp only [List.map_cons, List.nodup_cons] at hnd
    have hstep : dupdate b ((pk, pv) :: rest) = dupdate (dsetKey b pk pv) rest := rfl
    rw [hstep, ih hnd.2 _ k]
    by_cases hk : pk = k
    · subst hk
      rw [dget_eq_none_of_not_mem rest pk hnd.1]
      simp [dget, dget_dsetKey]
    · simp only [dget, if_neg hk]
      cases hr : dget rest k <;> simp [dget_dsetKey, hk]

theorem mergeImageAnalysis_api_true (d : DocAnalysis) (ia : Option ImgAnalysis) :
    (mergeImageAnalysis d true ia).2 = true := by
  cases ia with
  | none => rfl
  | some a =>
    by_cases hc : (a.truthy && a.success.getD false) = true
    · simp [mergeImageAnalysis, hc]
    · simp [mergeImageAnalysis, hc]

theorem faceAnalysisLoop_api_true (env : Env) :
    ∀ (fs : List Face) (d d2 : DocAnalysis) (api2 : Bool) (calls : List Face),
      faceAnalysisLoop env fs d true = (.ok (d2, api2), calls) → api2 = true := by
  intro fs
  induction fs with
  | nil =>
    intro d d2 api2 calls h
    simp only [faceAnalysisLoop, Prod.mk.injEq, Except.ok.injEq] at h
    exact h.1.2.symm
  | cons f rest ih =>
    intro d d2 api2 calls h
    cases hia : env.analyze_image_content f with
    | error e =>
      simp only [faceAnalysisLoop, hia] at h
      simp at h
    | ok ia =>
      simp only [faceAnalysisLoop, hia] at h
      rw [mergeImageAnalysis_api_true d ia] at h
      rcases hrec : faceAnalysisLoop env rest (mergeImageAnalysis d true ia).1
          true with ⟨rr, cc⟩
      rw [hrec] at h
      simp only [Prod.mk.injEq] at h
      exact ih (mergeImageAnalysis d true ia).1 d2 api2 cc (by rw [hrec, h.1])

theorem mergeImageAnalysis_api_false (d : DocAnalysis) (ia : Option ImgAnalysis)
    (h : ∀ a, ia = some a → a.api_available.getD false = false) :
    (mergeImageAnalysis d false ia).2 = false := by
  cases ia with
  | none => rfl
  | some a =>
    by_cases hc : (a.truthy && a.success.getD false) = true
    · simp [mergeImageAnalysis, hc, h a rfl]
    · simp [mergeImageAnalysis, hc]

theorem faceAnalysisLoop_calls_take_one (env : Env) (fs : List Face)
    (d : DocAnalysis) (api : Bool) :
    (faceAnalysisLoop env (fs.take 1) d api).2 = fs.take 1 := by
  cases fs with
  | nil => rfl
  | cons f rest =>
    simp only [List.take_succ_cons, List.take_zero]
    exact faceAnalysisLoop_calls_singleton env f d api

/-! ### Concrete environments used as witnesses and counterexamples -/

/-- A fully benign environment: a `docx` with no text, no images and no
faces, whose analyzers both report unavailability without raising. -/
def envA : Env where
  get_document_type := .ok "docx"
  extract_text_from_document := fun _ => .ok ""
  perform_ocr := fun _ => .ok ""
  extract_images := fun _ => .ok []
  extract_faces := fun _ => .ok []
  analyze_document := fun _ => .ok ⟨some false, none, []⟩
  analyze_image_content := fun _ => .ok (some ⟨some false, some false, none, []⟩)
  decode_utf8 := fun _ => .ok ""

/-- Like `envA` but the document carries native text. -/
def envB : Env :=
  { envA with extract_text_from_document := fun _ => .ok "hello" }

/-- Like `envA` but the file is an image, so OCR triggers on empty text. -/
def envC : Env := { envA with get_document_type := .ok "image" }

/-- Like `envC` but OCR recovers the text "XYZ". -/
def envD : Env := { envC with perform_ocr := fun _ => .ok "XYZ" }

/-- Like `envA` but the document holds one image bearing three faces, and
image analysis returns `None`. -/
def envE : Env :=
  { envA with
    extract_images := fun _ => .ok [0]
    extract_faces := fun _ =>
      .ok [Face.str "f1", Face.str "f2", Face.str "f3"]
    analyze_image_content := fun _ => .ok none }

/-- An environment whose type detection raises. -/
def envF : Env := { envA with get_document_type := .error "boom" }

/-- Every run returns either a record with `success = true` or exactly the
failure shape produced by the exception handler. -/
theorem process_shape (env : Env) (sf : Bool) :
    ((process env sf).1).success = true ∨
      ∃ e, (process env sf).1 = mkFail e := by
  rcases hp : process env sf with ⟨r, t⟩
  unfold process at hp
  repeat' split at hp
  all_goals injection hp with h1 h2
  all_goals rw [← h1]
  all_goals first
    | (left; rfl)
    | (right; exact ⟨_, rfl⟩)

/-! ### Claims -/

/-- C1: every successful invocation of the pipeline returns a record whose
`face_count` field equals the number of elements of its `face_images`
sequence. -/
theorem c1_face_count_matches_face_images (env : Env) (sf : Bool)
    (hs : ((process env sf).1).success = true) :
    ∃ fi, (process env sf).1.face_images = some fi ∧
      (process env sf).1.face_count = some fi.length := by
  rcases hp : process env sf with ⟨r, t⟩
  rw [hp] at hs
  obtain ⟨dt, t0, text, images, face_images, d1, api1, d2, api2, calls, enc,
    _, _, _, _, _, _, _, henc, hr, _⟩ :=
    process_success_spec env sf r t hp hs
  subst hr
  exact ⟨enc, rfl, by simp [encodeFaces_length env face_images enc henc]⟩

/-- C1 witness: a concrete successful run. -/
theorem c1_witness :
    ∃ fi, (process envA false).1.face_images = some fi ∧
      (process envA false).1.face_count = some fi.length :=
  c1_face_count_matches_face_images envA false (by rfl)

/-- C2: if any step of the pipeline raises, the exception is caught at the
pipeline boundary and the returned record is exactly
`\x7bsuccess: false, error: message\x7d` carrying the raised message: one
conjunct per raising point of the source (type detection, native text
extraction, OCR, image extraction, face extraction, text analysis, face
analysis, face encoding), each conditional on the run having reached that
step; and every run, raising or not, returns either a success-shaped record
or exactly that failure shape, so no exception ever escapes the caller. -/
theorem c2_exceptions_caught (env : Env) (sf : Bool) :
    (((process env sf).1).success = true ∨
      ∃ e, (process env sf).1 = mkFail e) ∧
    (∀ e, env.get_document_type = .error e →
      (process env sf).1 = mkFail e) ∧
    (∀ doc_type e,
      env.get_document_type = .ok doc_type →
      env.extract_text_from_document doc_type = .error e →
      (process env sf).1 = mkFail e) ∧
    (∀ doc_type text0 e,
      env.get_document_type = .ok doc_type →
      env.extract_text_from_document doc_type = .ok text0 →
      textStage env doc_type text0 = .error e →
      (process env sf).1 = mkFail e) ∧
    (∀ doc_type text0 text e,
      env.get_document_type = .ok doc_type →
      env.extract_text_from_document doc_type = .ok text0 →
      textStage env doc_type text0 = .ok text →
      env.extract_images doc_type = .error e →
      (process env sf).1 = mkFail e) ∧
    (∀ doc_type text0 text images e,
      env.get_document_type = .ok doc_type →
      env.extract_text_from_document doc_type = .ok text0 →
      textStage env doc_type text0 = .ok text →
      env.extract_images doc_type = .ok images →
      facesStage env images sf = .error e →
      (process env sf).1 = mkFail e) ∧
    (∀ doc_type text0 text images face_images e,
      env.get_document_type = .ok doc_type →
      env.extract_text_from_document doc_type = .ok text0 →
      textStage env doc_type text0 = .ok text →
      env.extract_images doc_type = .ok images →
      facesStage env images sf = .ok face_images →
      textAnalysisStage env text = .error e →
      (process env sf).1 = mkFail e) ∧
    (∀ doc_type text0 text images face_images d1 api1 e calls,
      env.get_document_type = .ok doc_type →
      env.extract_text_from_document doc_type = .ok text0 →
      textStage env doc_type text0 = .ok text →
      env.extract_images doc_type = .ok images →
      facesStage env images sf = .ok face_images →
      textAnalysisStage env text = .ok (d1, api1) →
      (if needFaceAnalysis sf face_images d1 then
        faceAnalysisLoop env (face_images.take 1) d1 api1
       else (Except.ok (d1, api1), [])) = (.error e, calls) →
      (process env sf).1 = mkFail e) ∧
    (∀ doc_type text0 text images face_images d1 api1 d2 api2 calls e,
      env.get_document_type = .ok doc_type →
      env.extract_text_from_document doc_type = .ok text0 →
      textStage env doc_type text0 = .ok text →
      env.extract_images doc_type = .ok images →
      facesStage env images sf = .ok face_images →
      textAnalysisStage env text = .ok (d1, api1) →
      (if needFaceAnalysis sf face_images d1 then
        faceAnalysisLoop env (face_images.take 1) d1 api1
       else (Except.ok (d1, api1), [])) = (.ok (d2, api2), calls) →
      encodeFaces env face_images = .error e →
      (process env sf).1 = mkFail e) := by
  refine ⟨process_shape env sf, ?_, ?_, ?_, ?_, ?_, ?_, ?_, ?_⟩
  · intro e h1
    unfold process
    simp [h1]
  · intro doc_type e h1 h2
    unfold process
    simp [h1, h2]
  · intro doc_type text0 e h1 h2 h3
    unfold process
    simp [h1, h2, h3]
  · intro doc_type text0 text e h1 h2 h3 h4
    unfold process
    simp [h1, h2, h3, h4]
  · intro doc_type text0 text images e h1 h2 h3 h4 h5
    unfold process
    simp [h1, h2, h3, h4, h5]
  · intro doc_type text0 text images face_images e h1 h2 h3 h4 h5 h6
    unfold process
    simp [h1, h2, h3, h4, h5, h6]
  · intro doc_type text0 text images face_images d1 api1 e calls
      h1 h2 h3 h4 h5 h6 h7
    unfold process
    simp only [h1, h2, h3, h4, h5, h6, h7]
  · intro doc_type text0 text images face_images d1 api1 d2 api2 calls e
      h1 h2 h3 h4 h5 h6 h7 h8
    unfold process
    simp only [h1, h2, h3, h4, h5, h6, h7, h8]

/-- C2 witness: a run whose type detection raises with message "boom"
returns exactly the failure record carrying that message. -/
theorem c2_witness : (process envF false).1 = mkFail "boom" :=
  (c2_exceptions_caught envF false).2.1 "boom" rfl

/-- C10: on every failure path the returned record carries an error message
and none of the four success-only fields, even when earlier stages had
computed values for them. -/
theorem c10_failure_shape_minimal (env : Env) (sf : Bool)
    (hs : ((process env sf).1).success = false) :
    (process env sf).1.error.isSome = true ∧
    (process env sf).1.document_type = none ∧
    (process env sf).1.extracted_info = none ∧
    (process env sf).1.face_count = none ∧
    (process env sf).1.face_images = none := by
  rcases process_shape env sf with h | ⟨e, h⟩
  · rw [h] at hs; exact absurd hs (by simp)
  · rw [h]; simp [mkFail]

/-- C10 witness: a run whose type detection raises. -/
theorem c10_witness :
    (process envF false).1.error.isSome = true ∧
    (process envF false).1.document_type = none ∧
    (process envF false).1.extracted_info = none ∧
    (process envF false).1.face_count = none ∧
    (process envF false).1.face_images = none :=
  c10_failure_shape_minimal envF false (by rfl)

/-- C8: when face-skip is requested, every successful result has
`face_count = 0` and an empty `face_images` sequence, regardless of the
images the document contains. -/
theorem c8_skip_faces_empty (env : Env)
    (hs : ((process env true).1).success = true) :
    (process env true).1.face_count = some 0 ∧
    (process env true).1.face_images = some [] := by
  rcases hp : process env true with ⟨r, t⟩
  rw [hp] at hs
  obtain ⟨dt, t0, text, images, face_images, d1, api1, d2, api2, calls, enc,
    _, _, _, _, hfaces, _, _, henc, hr, _⟩ :=
    process_success_spec env true r t hp hs
  have hfe : face_images = [] := by
    simp only [facesStage, if_pos rfl] at hfaces
    injection hfaces with h
    exact h.symm
  subst hfe
  have henc2 : enc = [] := by
    simp only [encodeFaces] at henc
    injection henc with h
    exact h.symm
  subst henc2
  subst hr
  exact ⟨rfl, rfl⟩

/-- C8 witness: a run with face-skip on an environment that does contain a
face-bearing image. -/
theorem c8_witness :
    (process envE true).1.face_count = some 0 ∧
    (process envE true).1.face_images = some [] :=
  c8_skip_faces_empty envE (by rfl)

/-- The recorded `perform_ocr` invocations of a run whose type detection and
native text extraction succeed. -/
theorem process_ocrCalls (env : Env) (sf : Bool) (doc_type text0 : String)
    (hdt : env.get_document_type = .ok doc_type)
    (ht0 : env.extract_text_from_document doc_type = .ok text0) :
    (process env sf).2.ocrCalls =
      if ocrCondition doc_type text0 then [doc_type] else [] := by
  unfold process
  simp only [hdt, ht0]
  repeat' first | rfl | split

/-- The OCR trigger, unfolded to the side conditions named by the claim. -/
theorem ocrCondition_eq_true_iff (doc_type text0 : String) :
    ocrCondition doc_type text0 = true ↔
      ((doc_type = "image" ∨ doc_type = "pdf") ∧
        (text0 = "" ∨ text0.length < 50)) := by
  simp only [ocrCondition, Bool.and_eq_true, Bool.or_eq_true, beq_iff_eq,
    decide_eq_true_eq]
  constructor
  · rintro ⟨h1, h2⟩; exact ⟨h2, h1⟩
  · rintro ⟨h1, h2⟩; exact ⟨h2, h1⟩

/-- C4: whenever type detection and native extraction complete, the OCR
engine is invoked exactly when the document type is `image` or `pdf` and the
native text is empty or shorter than 50 characters. -/
theorem c4_ocr_trigger (env : Env) (sf : Bool) (doc_type text0 : String)
    (hdt : env.get_document_type = .ok doc_type)
    (ht0 : env.extract_text_from_document doc_type = .ok text0) :
    (process env sf).2.ocrCalls ≠ [] ↔
      ((doc_type = "image" ∨ doc_type = "pdf") ∧
        (text0 = "" ∨ text0.length < 50)) := by
  rw [process_ocrCalls env sf doc_type text0 hdt ht0,
    ← ocrCondition_eq_true_iff]
  by_cases h : ocrCondition doc_type text0 = true <;> simp [h]

/-- C4 witness: an image with empty native text triggers OCR. -/
theorem c4_witness :
    (process envC false).2.ocrCalls ≠ [] ↔
      ((("image" : String) = "image" ∨ ("image" : String) = "pdf") ∧
        (("" : String) = "" ∨ ("" : String).length < 50)) :=
  c4_ocr_trigger envC false "image" "" rfl rfl

/-- C5: when OCR is triggered and recovers non-empty text, the combined
text of the pipeline appends the OCR text to non-empty native text after a
blank-line separator, and equals exactly the OCR text when the native text
was empty. -/
theorem c5_ocr_combination (env : Env) (doc_type text0 ocr_text : String)
    (htrig : ocrCondition doc_type text0 = true)
    (hocr : env.perform_ocr doc_type = .ok ocr_text)
    (hne : ocr_text ≠ "") :
    textStage env doc_type text0 =
      .ok (if text0 = "" then ocr_text
           else text0 ++ "\n\n" ++ ocr_text) := by
  simp only [textStage, htrig, if_true, hocr, combineOcr]
  by_cases h0 : text0 = "" <;> simp [h0, hne]

/-- C5 witness: empty native text and OCR text "XYZ" combine to exactly
"XYZ". -/
theorem c5_witness :
    textStage envD "image" "" =
      .ok (if ("" : String) = "" then "XYZ"
           else "" ++ "\n\n" ++ "XYZ") :=
  c5_ocr_combination envD "image" "" "XYZ" rfl rfl (by decide)

/-- The recorded `analyze_image_content` invocations of a run that reaches
the face-analysis decision. -/
theorem process_imgCalls (env : Env) (sf : Bool) (doc_type text0 text : String)
    (images : List Image) (face_images : List Face)
    (d1 : DocAnalysis) (api1 : Bool)
    (hdt : env.get_document_type = .ok doc_type)
    (ht0 : env.extract_text_from_document doc_type = .ok text0)
    (htext : textStage env doc_type text0 = .ok text)
    (himg : env.extract_images doc_type = .ok images)
    (hfaces : facesStage env images sf = .ok face_images)
    (hanalysis : textAnalysisStage env text = .ok (d1, api1)) :
    (process env sf).2.imgCalls =
      (if needFaceAnalysis sf face_images d1 then face_images.take 1
       else []) := by
  have hcalls : ∀ (fr : Except String (DocAnalysis × Bool))
      (calls : List Face),
      (if needFaceAnalysis sf face_images d1 then
        faceAnalysisLoop env (face_images.take 1) d1 api1
       else (Except.ok (d1, api1), [])) = (fr, calls) →
      calls = (if needFaceAnalysis sf face_images d1 then face_images.take 1
               else []) := by
    intro fr calls hfa
    by_cases hn : needFaceAnalysis sf face_images d1 = true
    · rw [if_pos hn] at hfa ⊢
      rw [← faceAnalysisLoop_calls_take_one env face_images d1 api1, hfa]
    · rw [if_neg hn] at hfa ⊢
      injection hfa with _ h2
      exact h2.symm
  unfold process
  simp only [hdt, ht0, htext, himg, hfaces, hanalysis]
  rcases hfa : (if needFaceAnalysis sf face_images d1 then
      faceAnalysisLoop env (face_images.take 1) d1 api1
    else (Except.ok (d1, api1), [])) with ⟨fr, calls⟩
  cases fr with
  | error e => exact hcalls _ _ hfa
  | ok p =>
    rcases p with ⟨d2, api2⟩
    cases henc : encodeFaces env face_images with
    | error e => simp only [henc]; exact hcalls _ _ hfa
    | ok enc => simp only [henc]; exact hcalls _ _ hfa

/-- The face-analysis trigger, unfolded to the side conditions named by the
claim. -/
theorem needFaceAnalysis_eq_true_iff (sf : Bool) (face_images : List Face)
    (d : DocAnalysis) :
    needFaceAnalysis sf face_images d = true ↔
      (sf = false ∧ face_images ≠ [] ∧
        (d.structuredInfoTruthy = false ∨ d.personalInfoTruthy = false)) := by
  simp [needFaceAnalysis, List.isEmpty_iff, Bool.not_eq_true']
  tauto

/-- C6: in a run that reaches the face-analysis decision, the fallback runs
exactly when face-skip is off, a face was detected, and the text analysis
yielded no truthy `structured_info` or one without a truthy
`personal_info`; and when it runs, `analyze_image_content` is invoked
exactly once, on the first detected face. -/
theorem c6_face_fallback (env : Env) (sf : Bool) (doc_type text0 text : String)
    (images : List Image) (face_images : List Face)
    (d1 : DocAnalysis) (api1 : Bool)
    (hdt : env.get_document_type = .ok doc_type)
    (ht0 : env.extract_text_from_document doc_type = .ok text0)
    (htext : textStage env doc_type text0 = .ok text)
    (himg : env.extract_images doc_type = .ok images)
    (hfaces : facesStage env images sf = .ok face_images)
    (hanalysis : textAnalysisStage env text = .ok (d1, api1)) :
    (process env sf).2.imgCalls =
      (if needFaceAnalysis sf face_images d1 then face_images.take 1
       else []) ∧
    (needFaceAnalysis sf face_images d1 = true ↔
      (sf = false ∧ face_images ≠ [] ∧
        (d1.structuredInfoTruthy = false ∨
          d1.personalInfoTruthy = false))) ∧
    (needFaceAnalysis sf face_images d1 = true →
      ∃ f rest, face_images = f :: rest ∧
        (process env sf).2.imgCalls = [f]) := by
  have hic := process_imgCalls env sf doc_type text0 text images face_images
    d1 api1 hdt ht0 htext himg hfaces hanalysis
  refine ⟨hic, needFaceAnalysis_eq_true_iff sf face_images d1, ?_⟩
  intro hn
  obtain ⟨-, hne, -⟩ := (needFaceAnalysis_eq_true_iff sf face_images d1).mp hn
  cases hfi : face_images with
  | nil => exact absurd hfi hne
  | cons f rest =>
    refine ⟨f, rest, rfl, ?_⟩
    rw [hic, if_pos hn, hfi]
    rfl

/-- C6 witness: three detected faces, no structured text info, face-skip
off: exactly the first face is analyzed. -/
theorem c6_witness :
    (process envE false).2.imgCalls =
      (if needFaceAnalysis false [Face.str "f1", Face.str "f2", Face.str "f3"]
          DocAnalysis.empty
       then [Face.str "f1", Face.str "f2", Face.str "f3"].take 1
       else []) ∧
    (needFaceAnalysis false [Face.str "f1", Face.str "f2", Face.str "f3"]
        DocAnalysis.empty = true ↔
      (false = false ∧
        [Face.str "f1", Face.str "f2", Face.str "f3"] ≠ [] ∧
        (DocAnalysis.empty.structuredInfoTruthy = false ∨
          DocAnalysis.empty.personalInfoTruthy = false))) ∧
    (needFaceAnalysis false [Face.str "f1", Face.str "f2", Face.str "f3"]
        DocAnalysis.empty = true →
      ∃ f rest,
        [Face.str "f1", Face.str "f2", Face.str "f3"] = f :: rest ∧
        (process envE false).2.imgCalls = [f]) :=
  c6_face_fallback envE false "docx" "" "" [0]
    [Face.str "f1", Face.str "f2", Face.str "f3"] DocAnalysis.empty true
    rfl rfl rfl rfl rfl rfl

/-- C7: when the image analysis succeeds (truthy result with a truthy
`success` flag) and carries a structured-info dictionary, its fields are
merged into the existing structured_info with image values overwriting text
values on key collision, and the availability flag becomes the OR of the
text-analysis outcome and the image-analysis outcome. -/
theorem c7_merge_policy (d : DocAnalysis) (api : Bool) (a : ImgAnalysis)
    (u : List (String × Value))
    (hok : (a.truthy && a.success.getD false) = true)
    (hsi : a.structured_info = some (.vdict u))
    (hnd : (u.map Prod.fst).Nodup) :
    (mergeImageAnalysis d api (some a)).2 =
      (api || a.api_available.getD false) ∧
    (mergeImageAnalysis d api (some a)).1.structured_info =
      some (dupdate (d.structured_info.getD []) u) ∧
    ∀ k, dget (dupdate (d.structured_info.getD []) u) k =
      match dget u k with
      | some v => some v
      | none => dget (d.structured_info.getD []) k := by
  have hbase : (if d.structured_info.isSome then d
      else { d with structured_info := some [] }).structured_info.getD []
      = d.structured_info.getD [] := by
    cases hd : d.structured_info <;> simp [hd]
  refine ⟨?_, ?_, fun k => dget_dupdate u hnd _ k⟩
  · simp [mergeImageAnalysis, hok]
  · simp [mergeImageAnalysis, hok, hsi, hbase]

/-- C7 witness: the image-analysis value for "name" overwrites the
text-analysis value, the text-only key "id" survives, and the availability
flags are ORed. -/
theorem c7_witness :
    (mergeImageAnalysis
        ⟨some false, some [("name", .vstr "T"), ("id", .vstr "1")], []⟩
        false
        (some ⟨some true, some true, some (.vdict [("name", .vstr "X")]), []⟩)).2
      = (false || (some true : Option Bool).getD false) ∧
    (mergeImageAnalysis
        ⟨some false, some [("name", .vstr "T"), ("id", .vstr "1")], []⟩
        false
        (some ⟨some true, some true, some (.vdict [("name", .vstr "X")]), []⟩)).1.structured_info
      = some (dupdate
          ((some [("name", Value.vstr "T"), ("id", Value.vstr "1")] :
              Option (List (String × Value))).getD [])
          [("name", .vstr "X")]) ∧
    dget (dupdate
        ((some [("name", Value.vstr "T"), ("id", Value.vstr "1")] :
            Option (List (String × Value))).getD [])
        [("name", .vstr "X")]) "name"
      = (match dget [("name", Value.vstr "X")] "name" with
         | some v => some v
         | none => dget ((some [("name", Value.vstr "T"),
              ("id", Value.vstr "1")] :
              Option (List (String × Value))).getD []) "name") ∧
    dget (dupdate
        ((some [("name", Value.vstr "T"), ("id", Value.vstr "1")] :
            Option (List (String × Value))).getD [])
        [("name", .vstr "X")]) "id"
      = (match dget [("name", Value.vstr "X")] "id" with
         | some v => some v
         | none => dget ((some [("name", Value.vstr "T"),
              ("id", Value.vstr "1")] :
              Option (List (String × Value))).getD []) "id") := by
  have h := c7_merge_policy
    ⟨some false, some [("name", .vstr "T"), ("id", .vstr "1")], []⟩
    false
    ⟨some true, some true, some (.vdict [("name", .vstr "X")]), []⟩
    [("name", .vstr "X")]
    (by rfl) rfl (by simp)
  exact ⟨h.1, h.2.1, h.2.2 "name", h.2.2 "id"⟩

/-- C9: when no text content remains after native extraction and OCR, the
text analyzer is never invoked, and a successful result reports
api_available = true (the no-attempt default), not false. -/
theorem c9_no_text_api_true (env : Env) (sf : Bool) (doc_type text0 : String)
    (hdt : env.get_document_type = .ok doc_type)
    (ht0 : env.extract_text_from_document doc_type = .ok text0)
    (htext : textStage env doc_type text0 = .ok "")
    (hs : ((process env sf).1).success = true) :
    (process env sf).2.docCalls = [] ∧
    ∃ dr, (process env sf).1.extracted_info = some dr ∧
      dr.api_available = some true := by
  rcases hp : process env sf with ⟨r, t⟩
  rw [hp] at hs
  obtain ⟨dt, t0, text, images, face_images, d1, api1, d2, api2, calls, enc,
    hdt2, ht02, htext2, himg2, hfaces2, hanalysis2, hloop2, henc2, hr, ht⟩ :=
    process_success_spec env sf r t hp hs
  rw [hdt] at hdt2
  injection hdt2 with hdteq
  subst hdteq
  rw [ht0] at ht02
  injection ht02 with ht0eq
  subst ht0eq
  rw [htext] at htext2
  injection htext2 with htexteq
  subst htexteq
  have hta : textAnalysisStage env "" = .ok (DocAnalysis.empty, true) := by
    simp [textAnalysisStage]
  rw [hta] at hanalysis2
  injection hanalysis2 with hpair
  injection hpair with hd1 hapi1
  subst hd1
  subst hapi1
  have hapi2 : api2 = true := by
    by_cases hn : needFaceAnalysis sf face_images DocAnalysis.empty = true
    · rw [if_pos hn] at hloop2
      exact faceAnalysisLoop_api_true env (face_images.take 1)
        DocAnalysis.empty d2 api2 calls hloop2
    · rw [if_neg hn] at hloop2
      injection hloop2 with h1 h2
      injection h1 with h3
      injection h3 with h4 h5
      exact h5.symm
  constructor
  · rw [ht]
    simp
  · rw [hr]
    exact ⟨_, rfl, by rw [hapi2]⟩

/-- C9 witness: a face-bearing document with no text at all. -/
theorem c9_witness :
    (process envE false).2.docCalls = [] ∧
    ∃ dr, (process envE false).1.extracted_info = some dr ∧
      dr.api_available = some true :=
  c9_no_text_api_true envE false "docx" "" rfl rfl rfl (by rfl)

/-- C3 counterexample: in `envA` every collaborator succeeds and both
analyzer entry points report unavailability without raising (the text
analyzer answers `api_available = false` on every input), yet because the
document holds no text the pipeline returns `api_available = true`, not
false as the claim demands. -/
theorem c3_counterexample :
    envA.analyze_document "" = .ok ⟨some false, none, []⟩ ∧
    (process envA false).1.success = true ∧
    (process envA false).1.extracted_info = some ⟨some true, none, []⟩ :=
  ⟨rfl, rfl, rfl⟩

/-- C3 (amended): for every input where both analyzer entry points report
unavailability without raising, every other pipeline step involved also
completes without raising, and some text content is present after
extraction and OCR, the pipeline returns success = true with
extracted_info.api_available = false; analyzer unavailability alone never
yields a fatal result. -/
theorem c3_amended_unavailability_not_fatal (env : Env) (sf : Bool)
    (doc_type text0 text : String) (images : List Image)
    (face_images : List Face) (d : DocAnalysis) (enc : List String)
    (hdt : env.get_document_type = .ok doc_type)
    (ht0 : env.extract_text_from_document doc_type = .ok text0)
    (htext : textStage env doc_type text0 = .ok text)
    (hne : text ≠ "")
    (himg : env.extract_images doc_type = .ok images)
    (hfaces : facesStage env images sf = .ok face_images)
    (had : env.analyze_document text = .ok d)
    (hunavail : d.api_available.getD false = false)
    (himga : ∀ f, f ∈ face_images →
      ∃ ia, env.analyze_image_content f = .ok ia ∧
        ∀ a, ia = some a → a.api_available.getD false = false)
    (henc : encodeFaces env face_images = .ok enc) :
    (process env sf).1.success = true ∧
    ∃ dr, (process env sf).1.extracted_info = some dr ∧
      dr.api_available = some false := by
  have hta : textAnalysisStage env text = .ok (d, false) := by
    simp [textAnalysisStage, hne, had, hunavail]
  unfold process
  simp only [hdt, ht0, htext, himg, hfaces, hta]
  by_cases hn : needFaceAnalysis sf face_images d = true
  · have hne2 : face_images ≠ [] := by
      intro h
      rw [h] at hn
      simp [needFaceAnalysis] at hn
    obtain ⟨f, rest, hfi⟩ : ∃ f rest, face_images = f :: rest := by
      cases face_images with
      | nil => exact absurd rfl hne2
      | cons f rest => exact ⟨f, rest, rfl⟩
    subst hfi
    obtain ⟨ia, hia, hiaun⟩ := himga f (List.mem_cons_self f rest)
    have hloop : faceAnalysisLoop env ((f :: rest).take 1) d false =
        (.ok ((mergeImageAnalysis d false ia).1, false), [f]) := by
      simp only [List.take_succ_cons, List.take_zero]
      simp only [faceAnalysisLoop, hia]
      rw [mergeImageAnalysis_api_false d ia hiaun]
    rw [if_pos hn, hloop]
    constructor
    · simp only [henc]
    · exact ⟨{ (mergeImageAnalysis d false ia).1 with
          api_available := some false }, by simp only [henc], rfl⟩
  · rw [if_neg hn]
    constructor
    · simp only [henc]
    · exact ⟨{ d with api_available := some false },
        by simp only [henc], rfl⟩

/-- C3 amended witness: a text-bearing document whose analyzer reports
unavailability. -/
theorem c3_amended_witness :
    (process envB false).1.success = true ∧
    ∃ dr, (process envB false).1.extracted_info = some dr ∧
      dr.api_available = some false :=
  c3_amended_unavailability_not_fatal envB false "docx" "hello" "hello"
    [] [] ⟨some false, none, []⟩ []
    rfl rfl rfl (by decide) rfl rfl rfl rfl
    (fun f hf => absurd hf (List.not_mem_nil f)) rfl

end Docu
